import Mathlib

/-!
Shallow embedding of the core trading components of the crypto_trader_clean
repository, together with theorems settling the specification claims.

The definitions below are translated from the Python source:
  * `src/src/core/order_executor.py` — `OrderExecutor` (position tracking,
    order validation, retry wrapper, `execute_order`, `adjust_position`);
  * `src/src/core/coinbase_client.py` — price cache and `get_current_price`;
  * `src/src/core/coinbase_streaming.py` — attribute audit of
    `CoinbaseStreaming` and its `get_current_price`;
  * `src/src/core/trading_core.py` — moving averages, crossover strategy
    and daily statistics.

Python `Decimal` values are modelled as rationals (`ℚ`); trading pairs and
order sides as strings; raised exceptions as `Except` error results carrying
the exception kind and message.
-/

/-- A tracked position for a trading pair, mirroring the dict
`{'size': Decimal, 'entry_price': Decimal}` kept in `OrderExecutor.positions`. -/
structure Position where
  size : ℚ
  entry_price : ℚ
  deriving Repr, DecidableEq

/-- The buy branch of `OrderExecutor._update_position`:
`new_size = size + size_dec`; entry price is `price` on a flat position and
otherwise the size-weighted average `(old_size*old_entry + size*price) / new_size`. -/
def updatePositionBuy (p : Position) (size price : ℚ) : Position :=
  ⟨p.size + size,
   if p.size = 0 then price
   else (p.size * p.entry_price + size * price) / (p.size + size)⟩

/-- The sell branch of `OrderExecutor._update_position`:
`new_size = size - size_dec`; the entry price is reset to 0 when the new size
is exactly 0 and left unchanged otherwise. -/
def updatePositionSell (p : Position) (size : ℚ) : Position :=
  ⟨p.size - size, if p.size - size = 0 then 0 else p.entry_price⟩

/-- Fold a sequence of buys `(size, price)` through `_update_position`. -/
def applyBuys (p : Position) : List (ℚ × ℚ) → Position
  | [] => p
  | b :: rest => applyBuys (updatePositionBuy p b.1 b.2) rest

/-- Total bought size `Σ size_i` of a sequence of buys. -/
def totalSize (buys : List (ℚ × ℚ)) : ℚ :=
  (buys.map fun b => b.1).sum

/-- Total cost `Σ size_i * price_i` of a sequence of buys. -/
def totalCost (buys : List (ℚ × ℚ)) : ℚ :=
  (buys.map fun b => b.1 * b.2).sum

/-- Typed errors of the trading system (`src/utils/exceptions.py`). Each
constructor carries the full exception message, including the prefix that the
exception class prepends in its `__init__`. -/
inductive TradingError where
  | validationError : String → TradingError
  | positionError : String → TradingError
  | orderExecutionError : String → TradingError
  deriving Repr, DecidableEq

/-- `str(e)` of a `TradingException`: the carried message. -/
def errMessage : TradingError → String
  | TradingError.validationError m => m
  | TradingError.positionError m => m
  | TradingError.orderExecutionError m => m

/-- `OrderExecutor._validate_order_params`: returns the message of the
`ValidationError` it raises, or `none` when all parameters are valid.
Python falsiness of an empty trading pair is modelled as equality with `""`. -/
def validateOrderParams (side : String) (size price : ℚ) (pair : String) :
    Option String :=
  if side ≠ "buy" ∧ side ≠ "sell" then
    some ("Invalid order side: " ++ side ++ " (must be buy or sell)")
  else if size ≤ 0 then
    some ("Invalid order size: " ++ toString size ++ " (must be positive)")
  else if price ≤ 0 then
    some ("Invalid order price: " ++ toString price ++ " (must be positive)")
  else if pair = "" then
    some "Trading pair is required"
  else
    none

/-- Observable behaviour of `OrderExecutor._execute_with_retry`: how many
gateway calls were made, which sleep delays were requested between attempts,
and the final outcome (`ok order_id`, or the raw message of the
`OrderExecutionError` raised after the last attempt). -/
structure RetryTrace where
  calls : Nat
  delays : List ℚ
  result : Except String String
  deriving Repr

/-- The message of the `OrderExecutionError` raised by `_execute_with_retry`
after its last attempt fails, before the class prefix is prepended. -/
def retryExhaustedMessage (total : Nat) (last : String) : String :=
  "Operation failed after " ++ toString total ++ " attempts: " ++ last

/-- The retry loop of `_execute_with_retry`, one step per attempt. The
gateway is modelled as a function from the 0-based attempt index to the
outcome of that call (`ok order_id` or `error message`); `lastErr` is the
`str(last_error)` accumulator (initially `"None"`, for Python `None`).
A sleep of `retry_delay * (attempt + 1)` happens after every failed attempt
except the final one. -/
def retryAux (gateway : Nat → Except String String) (retryDelay : ℚ)
    (total : Nat) : Nat → Nat → String → RetryTrace
  | _, 0, lastErr =>
    ⟨0, [], Except.error (retryExhaustedMessage total lastErr)⟩
  | attempt, remaining + 1, _ =>
    match gateway attempt with
    | Except.ok oid => ⟨1, [], Except.ok oid⟩
    | Except.error e =>
      let rest := retryAux gateway retryDelay total (attempt + 1) remaining e
      ⟨rest.calls + 1,
       (if 0 < remaining then [retryDelay * ((attempt : ℚ) + 1)] else [])
         ++ rest.delays,
       rest.result⟩

/-- `OrderExecutor._execute_with_retry`, starting at attempt 0 with
`retry_attempts` attempts remaining. -/
def executeWithRetry (gateway : Nat → Except String String) (retryDelay : ℚ)
    (retryAttempts : Nat) : RetryTrace :=
  retryAux gateway retryDelay retryAttempts 0 retryAttempts "None"

/-- The position-ledger update performed by `_update_position` on a
successful order: only the entry of `pair` changes, through the buy or the
sell branch according to `side` (already validated to be `"buy"` or
`"sell"`). -/
def updatePosition (positions : String → Position) (pair side : String)
    (size price : ℚ) : String → Position :=
  fun p =>
    if p = pair then
      if side = "buy" then updatePositionBuy (positions pair) size price
      else updatePositionSell (positions pair) size
    else positions p

/-- The order-result dict returned by a successful `execute_order`
(timestamp omitted: wall-clock time is outside the model). -/
structure OrderResult where
  status : String
  order_id : String
  trading_pair : String
  side : String
  size : ℚ
  price : ℚ
  deriving Repr, DecidableEq

/-- Observable behaviour of one `execute_order` call: gateway calls made,
sleep delays requested, the position ledger afterwards, and the returned
order result or raised error. -/
structure ExecOutcome where
  calls : Nat
  delays : List ℚ
  positions : String → Position
  result : Except TradingError OrderResult

/-- The tail of `execute_order` after validation and the position check: the
retry wrapper runs, and on success the ledger is updated and a filled order
result returned. When the retry wrapper exhausts its attempts it raises
`OrderExecutionError`; that exception is not an `ExchangeError`, so the
generic `except Exception` clause of `execute_order` catches it and wraps it
in a second `OrderExecutionError` built from `str(e)` — hence the doubled
message prefix. -/
def executeOrderSubmit (positions : String → Position) (rt : RetryTrace)
    (side : String) (size price : ℚ) (pair : String) : ExecOutcome :=
  match rt.result with
  | Except.error m =>
    ⟨rt.calls, rt.delays, positions,
     Except.error (TradingError.orderExecutionError
       ("Order execution error: Order execution error: " ++ m))⟩
  | Except.ok oid =>
    ⟨rt.calls, rt.delays, updatePosition positions pair side size price,
     Except.ok ⟨"filled", oid, pair, side, size, price⟩⟩

/-- `OrderExecutor.execute_order` (risk manager unset, its `None` default):
validate parameters, reject a sell larger than the tracked position with
`PositionError`, then submit through the retry wrapper. -/
def executeOrder (positions : String → Position) (retryAttempts : Nat)
    (retryDelay : ℚ) (gateway : Nat → Except String String)
    (side : String) (size price : ℚ) (pair : String) : ExecOutcome :=
  match validateOrderParams side size price pair with
  | some msg =>
    ⟨0, [], positions,
     Except.error (TradingError.validationError ("Validation error: " ++ msg))⟩
  | none =>
    if side = "sell" ∧ (positions pair).size < size then
      ⟨0, [], positions,
       Except.error (TradingError.positionError
         ("Position error: Insufficient position size for sell order: "
           ++ toString size))⟩
    else
      executeOrderSubmit positions (executeWithRetry gateway retryDelay retryAttempts)
        side size price pair

/-- Observable behaviour of one `adjust_position` call; the result is
`ok none` for the no-adjustment case. -/
structure AdjustOutcome where
  calls : Nat
  delays : List ℚ
  positions : String → Position
  result : Except TradingError (Option OrderResult)

/-- The tail of `adjust_position`: the result of its inner `execute_order`
call passes through on success, while any exception is caught by the
`except Exception` clause and wrapped in `OrderExecutionError` with message
`"Position adjustment failed: str(e)"`. -/
def adjustWrap (r : ExecOutcome) : AdjustOutcome :=
  match r.result with
  | Except.ok o => ⟨r.calls, r.delays, r.positions, Except.ok (some o)⟩
  | Except.error e =>
    ⟨r.calls, r.delays, r.positions,
     Except.error (TradingError.orderExecutionError
       ("Order execution error: Position adjustment failed: " ++ errMessage e))⟩

/-- `OrderExecutor.adjust_position`: return `none` without any exchange call
when the tracked size already equals the target, otherwise execute a single
buy (target above current) or sell (target below current) of the absolute
difference through `execute_order`. -/
def adjustPosition (positions : String → Position) (retryAttempts : Nat)
    (retryDelay : ℚ) (gateway : Nat → Except String String)
    (pair : String) (targetSize currentPrice : ℚ) : AdjustOutcome :=
  if (positions pair).size = targetSize then
    ⟨0, [], positions, Except.ok none⟩
  else
    adjustWrap (executeOrder positions retryAttempts retryDelay gateway
      (if (positions pair).size < targetSize then "buy" else "sell")
      (|targetSize - (positions pair).size|) currentPrice pair)

/-- Observable behaviour of one `CoinbaseClient.get_current_price` call:
number of REST fetches performed, the price cache afterwards, and the
returned value. -/
structure PriceFetchOutcome where
  networkCalls : Nat
  prices : String → Option ℚ
  value : ℚ

/-- `CoinbaseClient.get_current_price`. The cache `self.prices` maps pairs to
prices; `fetched` is the `price` field of the REST response for this symbol
(`none` when the response is empty or lacks the field). A cache hit returns
immediately with no network call. On a miss the REST fetch runs once; an
invalid response or a non-positive price raises `ApiError`, which the
method's own `except Exception` clause swallows into a returned 0 with the
cache unchanged; a valid price is written into the cache and returned. -/
def getCurrentPrice (prices : String → Option ℚ) (fetched : Option ℚ)
    (symbol : String) : PriceFetchOutcome :=
  match prices symbol with
  | some p => ⟨0, prices, p⟩
  | none =>
    match fetched with
    | none => ⟨1, prices, 0⟩
    | some q =>
      if q ≤ 0 then ⟨1, prices, 0⟩
      else ⟨1, fun s => if s = symbol then some q else prices s, q⟩

/-- `CoinbaseClient.simulate_price_update`: write a price straight into the
cache. -/
def simulatePriceUpdate (prices : String → Option ℚ) (symbol : String)
    (price : ℚ) : String → Option ℚ :=
  fun s => if s = symbol then some price else prices s

/-- The cache write of `CoinbaseClient._handle_ticker`: a ticker message with
both a product id and a price updates that pair's cache entry; incomplete
messages leave the cache unchanged. -/
def handleTicker (prices : String → Option ℚ) (productId : Option String)
    (price : Option ℚ) : String → Option ℚ :=
  match productId, price with
  | some pid, some p => fun s => if s = pid then some p else prices s
  | _, _ => prices

/-- The attributes assigned by `CoinbaseStreaming.__init__`
(`self.api_key`, `self.private_key`, `self.product_ids`, `self.channels`,
`self.websocket`, `self.url`). -/
def streamingInitAttrs : List String :=
  ["api_key", "private_key", "product_ids", "channels", "websocket", "url"]

/-- All instance attributes ever assigned by any method of
`CoinbaseStreaming`: auditing the class source, every `self.<attr> =`
assignment occurs in `__init__` (`connect`, `authenticate`, `subscribe`,
`receive_data`, `process_message`, `_handle_ticker`, `_handle_snapshot`,
`_handle_update`, `run` and `close` assign none). -/
def streamingWrittenAttrs : List String := streamingInitAttrs

/-- `CoinbaseStreaming.get_current_price` over an explicit attribute set:
reading `self.price_data` raises `AttributeError` when the attribute was
never assigned; otherwise the last stored price for the pair (or 0) is
returned. -/
def streamingGetCurrentPrice (attrs : List String)
    (priceData : String → Option (List ℚ)) (pair : String) :
    Except String ℚ :=
  if "price_data" ∈ attrs then
    match priceData pair with
    | some prices => Except.ok (prices.getLastD 0)
    | none => Except.ok 0
  else
    Except.error "AttributeError: CoinbaseStreaming object has no attribute price_data"

/-- `TradingCore.daily_stats` (the `last_reset` timestamp is outside the
model). -/
structure DailyStats where
  trades : Nat
  volume : ℚ
  pnl : ℚ
  deriving Repr, DecidableEq

/-- `TradingCore._initialize_trading_state`: all counters start at zero. -/
def initialDailyStats : DailyStats := ⟨0, 0, 0⟩

/-- `TradingCore._update_trading_state` for a filled trade of the given size
and price: increments the trade counter and adds `size * price` to the
volume; `pnl` is not touched. -/
def updateTradingState (stats : DailyStats) (size price : ℚ) : DailyStats :=
  ⟨stats.trades + 1, stats.volume + size * price, stats.pnl⟩

/-- Fold a sequence of filled trades `(size, price)` through
`_update_trading_state`. -/
def applyTrades (stats : DailyStats) : List (ℚ × ℚ) → DailyStats
  | [] => stats
  | t :: rest => applyTrades (updateTradingState stats t.1 t.2) rest

/-- The daily-loss check of `TradingCore.execute_trade`:
`daily_stats.pnl < -abs(daily_loss_limit)`. When it holds, the trade is
skipped and `is_running` is set to `False`. -/
def dailyLossLimitBreached (stats : DailyStats) (lossLimit : ℚ) : Bool :=
  decide (stats.pnl < -|lossLimit|)

/-- `TradingCore.calculate_moving_average`: 0 (the no-data value) when the
pair has no history or fewer prices than the window, and otherwise the mean
of the trailing `window` prices (`pd.Series(prices[-window:]).mean()`). -/
def calculateMovingAverage (priceData : String → Option (List ℚ))
    (pair : String) (window : Nat) : ℚ :=
  match priceData pair with
  | none => 0
  | some prices =>
    if prices.length < window then 0
    else (prices.drop (prices.length - window)).sum / (window : ℚ)

/-- The signal-and-trade decision of
`TradingCore.run_moving_average_crossover_strategy`: a buy is executed when
the short mean exceeds the long mean, a sell when it is below, and no trade
on a tie. Returns the side of the `execute_trade` call, or `none` when no
trade is executed. -/
def crossoverTradeSide (priceData : String → Option (List ℚ)) (pair : String)
    (shortWindow longWindow : Nat) : Option String :=
  let shortMA := calculateMovingAverage priceData pair shortWindow
  let longMA := calculateMovingAverage priceData pair longWindow
  if longMA < shortMA then some "buy"
  else if shortMA < longMA then some "sell"
  else none

theorem totalSize_cons (b : ℚ × ℚ) (rest : List (ℚ × ℚ)) :
    totalSize (b :: rest) = b.1 + totalSize rest := by
  simp [totalSize]

theorem totalCost_cons (b : ℚ × ℚ) (rest : List (ℚ × ℚ)) :
    totalCost (b :: rest) = b.1 * b.2 + totalCost rest := by
  simp [totalCost]

/-- Accounting invariant of the buy update: folding buys with positive sizes
adds the total size and the total cost to the position. -/
theorem applyBuys_size_cost (buys : List (ℚ × ℚ)) : ∀ p : Position,
    (∀ b ∈ buys, 0 < b.1) → 0 ≤ p.size →
    (applyBuys p buys).size = p.size + totalSize buys ∧
    (applyBuys p buys).size * (applyBuys p buys).entry_price
      = p.size * p.entry_price + totalCost buys := by
  induction buys with
  | nil =>
    intro p _ _
    simp [applyBuys, totalSize, totalCost]
  | cons b rest ih =>
    intro p hb hsz
    have hbpos : 0 < b.1 := hb b (List.mem_cons_self b rest)
    have hrest : ∀ x ∈ rest, 0 < x.1 := fun x hx => hb x (List.mem_cons_of_mem b hx)
    have hupsize : (updatePositionBuy p b.1 b.2).size = p.size + b.1 := rfl
    have hsz2 : 0 ≤ (updatePositionBuy p b.1 b.2).size := by
      rw [hupsize]; linarith
    have hupcost : (updatePositionBuy p b.1 b.2).size *
        (updatePositionBuy p b.1 b.2).entry_price
        = p.size * p.entry_price + b.1 * b.2 := by
      by_cases hz : p.size = 0
      · simp [updatePositionBuy, hz]
      · have hpos : (0 : ℚ) < p.size + b.1 := by
          have : 0 < p.size := lt_of_le_of_ne hsz (Ne.symm hz)
          linarith
        simp only [updatePositionBuy, hz, if_false]
        field_simp
    obtain ⟨h1, h2⟩ := ih (updatePositionBuy p b.1 b.2) hrest hsz2
    refine ⟨?_, ?_⟩
    · show (applyBuys (updatePositionBuy p b.1 b.2) rest).size = _
      rw [h1, hupsize, totalSize_cons]
      ring
    · show (applyBuys (updatePositionBuy p b.1 b.2) rest).size *
        (applyBuys (updatePositionBuy p b.1 b.2) rest).entry_price = _
      rw [h2, hupcost, totalCost_cons]
      ring

/-- The total size of a nonempty sequence of positive buys is positive. -/
theorem totalSize_pos (buys : List (ℚ × ℚ)) (hne : buys ≠ [])
    (hb : ∀ b ∈ buys, 0 < b.1) : 0 < totalSize buys := by
  apply List.sum_pos
  · intro x hx
    obtain ⟨b, hbmem, hbx⟩ := List.mem_map.mp hx
    exact hbx ▸ hb b hbmem
  · simpa using hne

/-- Against a gateway failing every call, the retry loop with `r + 1`
remaining attempts starting at attempt `a` makes exactly `r + 1` calls,
sleeps `retry_delay * (k + 1)` after each attempt `k` except the last, and
ends with the `OrderExecutionError` message built from the last failure. -/
theorem retryAux_allFail (gw : Nat → Except String String) (em : Nat → String)
    (d : ℚ) (total : Nat) (hgw : ∀ k, gw k = Except.error (em k)) :
    ∀ (r a : Nat) (lastErr : String),
    retryAux gw d total a (r + 1) lastErr =
      ⟨r + 1, (List.range' a r).map (fun k => d * ((k : ℚ) + 1)),
       Except.error (retryExhaustedMessage total (em (a + r)))⟩ := by
  intro r
  induction r with
  | zero =>
    intro a lastErr
    simp [retryAux, hgw a]
  | succ r ih =>
    intro a lastErr
    rw [retryAux, hgw a]
    simp only [ih (a + 1)]
    refine congrArg₂ (RetryTrace.mk (r + 1 + 1)) ?_ ?_
    · rw [List.range'_succ]
      simp
    · have : a + (r + 1) = a + 1 + r := by omega
      rw [this]

/-- `_execute_with_retry` against an always-failing gateway: exactly
`retry_attempts` calls, delays `retry_delay * 1, …, retry_delay * (n-1)`,
then the `OrderExecutionError` message quoting the final attempt's error. -/
theorem executeWithRetry_allFail (gw : Nat → Except String String)
    (em : Nat → String) (d : ℚ) (n : Nat) (hn : 1 ≤ n)
    (hgw : ∀ k, gw k = Except.error (em k)) :
    executeWithRetry gw d n =
      ⟨n, (List.range (n - 1)).map (fun k => d * ((k : ℚ) + 1)),
       Except.error (retryExhaustedMessage n (em (n - 1)))⟩ := by
  obtain ⟨m, rfl⟩ : ∃ m, n = m + 1 := ⟨n - 1, (Nat.succ_pred_eq_of_pos hn).symm⟩
  rw [executeWithRetry, retryAux_allFail gw em d (m + 1) hgw m 0 "None"]
  simp [List.range_eq_range']

/-- C3: a sell whose size strictly exceeds the tracked position size for the
pair, with otherwise valid parameters, fails with `PositionError`, makes no
exchange buy/sell call, and leaves the position ledger unchanged. -/
theorem executeOrder_noShort
    (positions : String → Position) (n : Nat) (d : ℚ)
    (gw : Nat → Except String String) (size price : ℚ) (pair : String)
    (hvalid : validateOrderParams "sell" size price pair = none)
    (hsz : (positions pair).size < size) :
    executeOrder positions n d gw "sell" size price pair =
      ⟨0, [], positions,
       Except.error (TradingError.positionError
         ("Position error: Insufficient position size for sell order: "
           ++ toString size))⟩ := by
  simp only [executeOrder, hvalid]
  rw [if_pos (by simp [hsz])]

/-- Witness for C3: selling 2 units with a tracked position of 1 unit fails
with `PositionError`, zero gateway calls, ledger unchanged. -/
theorem executeOrder_noShort_witness :
    executeOrder (fun _ => ⟨1, 50⟩) 3 1 (fun _ => Except.ok "x")
        "sell" 2 100 "BTC-USD" =
      ⟨0, [], (fun _ => ⟨1, 50⟩),
       Except.error (TradingError.positionError
         ("Position error: Insufficient position size for sell order: "
           ++ toString (2 : ℚ)))⟩ :=
  executeOrder_noShort (fun _ => ⟨1, 50⟩) 3 1 (fun _ => Except.ok "x") 2 100
    "BTC-USD" (by simp [validateOrderParams]; norm_num) (by norm_num)

/-- C4: against a gateway that raises on every call, `execute_order` with
otherwise valid parameters invokes the gateway exactly `retry_attempts`
times, sleeps `retry_delay * attempt_number` between consecutive attempts,
raises `OrderExecutionError` carrying the last underlying error message, and
leaves the position ledger unchanged. -/
theorem executeOrder_retry_exhaustion
    (positions : String → Position) (n : Nat) (d : ℚ)
    (gw : Nat → Except String String) (em : Nat → String)
    (side : String) (size price : ℚ) (pair : String)
    (hn : 1 ≤ n)
    (hgw : ∀ k, gw k = Except.error (em k))
    (hvalid : validateOrderParams side size price pair = none)
    (hsell : ¬(side = "sell" ∧ (positions pair).size < size)) :
    executeOrder positions n d gw side size price pair =
      ⟨n, (List.range (n - 1)).map (fun k => d * ((k : ℚ) + 1)), positions,
       Except.error (TradingError.orderExecutionError
         ("Order execution error: Order execution error: "
           ++ retryExhaustedMessage n (em (n - 1))))⟩ := by
  simp only [executeOrder, hvalid]
  rw [if_neg (by simpa using hsell)]
  rw [executeWithRetry_allFail gw em d n hn hgw]
  simp [executeOrderSubmit]

/-- Witness for C4: three attempts against a gateway that always raises
`boom`: three calls, delays `1, 2`, `OrderExecutionError`, ledger unchanged. -/
theorem executeOrder_retry_exhaustion_witness :
    executeOrder (fun _ => ⟨0, 0⟩) 3 1 (fun _ => Except.error "boom")
        "buy" 1 50000 "BTC-USD" =
      ⟨3, (List.range 2).map (fun k => (1 : ℚ) * ((k : ℚ) + 1)), (fun _ => ⟨0, 0⟩),
       Except.error (TradingError.orderExecutionError
         ("Order execution error: Order execution error: "
           ++ retryExhaustedMessage 3 "boom"))⟩ :=
  executeOrder_retry_exhaustion (fun _ => ⟨0, 0⟩) 3 1
    (fun _ => Except.error "boom") (fun _ => "boom") "buy" 1 50000 "BTC-USD"
    (by norm_num) (fun _ => rfl) (by simp [validateOrderParams]; norm_num)
    (by simp)

/-- C2: after every successful sell through `execute_order`, the new tracked
size is the old size minus the sold size; when the new size is exactly zero
the entry price is reset to zero regardless of its prior value, and otherwise
the entry price is unchanged. -/
theorem executeOrder_sell_update
    (positions : String → Position) (n : Nat) (d : ℚ)
    (gw : Nat → Except String String) (size price : ℚ) (pair oid : String)
    (hvalid : validateOrderParams "sell" size price pair = none)
    (hsz : ¬ (positions pair).size < size)
    (hok : (executeWithRetry gw d n).result = Except.ok oid) :
    ((executeOrder positions n d gw "sell" size price pair).positions pair).size
        = (positions pair).size - size ∧
    ((positions pair).size - size = 0 →
      ((executeOrder positions n d gw "sell" size price pair).positions pair).entry_price
        = 0) ∧
    ((positions pair).size - size ≠ 0 →
      ((executeOrder positions n d gw "sell" size price pair).positions pair).entry_price
        = (positions pair).entry_price) := by
  have hred : executeOrder positions n d gw "sell" size price pair
      = executeOrderSubmit positions (executeWithRetry gw d n) "sell" size price pair := by
    simp only [executeOrder, hvalid]
    rw [if_neg (by simpa using hsz)]
  have hsub : executeOrderSubmit positions (executeWithRetry gw d n) "sell" size price pair
      = ⟨(executeWithRetry gw d n).calls, (executeWithRetry gw d n).delays,
         updatePosition positions pair "sell" size price,
         Except.ok ⟨"filled", oid, pair, "sell", size, price⟩⟩ := by
    simp only [executeOrderSubmit, hok]
  rw [hred, hsub]
  refine ⟨by simp [updatePosition, updatePositionSell], ?_, ?_⟩
  · intro h
    simp [updatePosition, updatePositionSell, h]
  · intro h
    simp [updatePosition, updatePositionSell, h]

/-- Witness for C2: selling the whole position of 2 units resets the entry
price to zero. -/
theorem executeOrder_sell_update_witness :
    ((executeOrder (fun _ => ⟨2, 50⟩) 3 1 (fun _ => Except.ok "x")
        "sell" 2 60 "BTC-USD").positions "BTC-USD").size = 2 - 2 ∧
    ((2 : ℚ) - 2 = 0 →
      ((executeOrder (fun _ => ⟨2, 50⟩) 3 1 (fun _ => Except.ok "x")
        "sell" 2 60 "BTC-USD").positions "BTC-USD").entry_price = 0) ∧
    ((2 : ℚ) - 2 ≠ 0 →
      ((executeOrder (fun _ => ⟨2, 50⟩) 3 1 (fun _ => Except.ok "x")
        "sell" 2 60 "BTC-USD").positions "BTC-USD").entry_price = 50) :=
  executeOrder_sell_update (fun _ => ⟨2, 50⟩) 3 1 (fun _ => Except.ok "x")
    2 60 "BTC-USD" "x" (by simp [validateOrderParams]; norm_num)
    (by norm_num) rfl

/-- C1: every successful buy through `execute_order` updates the pair's
position through the weighted-average buy rule, and folding any nonempty
sequence of positive-size buys from a flat position (so, in particular, any
prefix of a sequence of buys since the position was last flat) yields size
`Σ size_i` and entry price `(Σ size_i * price_i) / Σ size_i`. -/
theorem executeOrder_buy_weighted_average :
    (∀ (positions : String → Position) (n : Nat) (d : ℚ)
        (gw : Nat → Except String String) (size price : ℚ) (pair oid : String),
      validateOrderParams "buy" size price pair = none →
      (executeWithRetry gw d n).result = Except.ok oid →
      (executeOrder positions n d gw "buy" size price pair).positions pair
        = updatePositionBuy (positions pair) size price) ∧
    (∀ (buys : List (ℚ × ℚ)) (e : ℚ),
      buys ≠ [] → (∀ b ∈ buys, 0 < b.1) →
      (applyBuys ⟨0, e⟩ buys).size = totalSize buys ∧
      (applyBuys ⟨0, e⟩ buys).entry_price = totalCost buys / totalSize buys) := by
  constructor
  · intro positions n d gw size price pair oid hvalid hok
    have hred : executeOrder positions n d gw "buy" size price pair
        = executeOrderSubmit positions (executeWithRetry gw d n) "buy" size price pair := by
      simp only [executeOrder, hvalid]
      rw [if_neg (by simp)]
    have hsub : executeOrderSubmit positions (executeWithRetry gw d n) "buy" size price pair
        = ⟨(executeWithRetry gw d n).calls, (executeWithRetry gw d n).delays,
           updatePosition positions pair "buy" size price,
           Except.ok ⟨"filled", oid, pair, "buy", size, price⟩⟩ := by
      simp only [executeOrderSubmit, hok]
    rw [hred, hsub]
    simp [updatePosition]
  · intro buys e hne hb
    obtain ⟨h1, h2⟩ := applyBuys_size_cost buys ⟨0, e⟩ hb le_rfl
    have hpos := totalSize_pos buys hne hb
    have hsz : (applyBuys ⟨0, e⟩ buys).size = totalSize buys := by
      simpa using h1
    refine ⟨hsz, ?_⟩
    have h3 : totalSize buys * (applyBuys ⟨0, e⟩ buys).entry_price = totalCost buys := by
      have h4 := h2
      rw [hsz] at h4
      simpa using h4
    rw [eq_div_iff (ne_of_gt hpos), mul_comm]
    exact h3

/-- Witness for C1: buying 2 @ 50 then 1 @ 55 from flat yields size 3 and
entry price 155/3; a single successful buy goes through the weighted-average
update. -/
theorem executeOrder_buy_weighted_average_witness :
    (executeOrder (fun _ => ⟨0, 0⟩) 3 1 (fun _ => Except.ok "x")
        "buy" 2 50 "BTC-USD").positions "BTC-USD"
      = updatePositionBuy ((fun _ => (⟨0, 0⟩ : Position)) "BTC-USD") 2 50 ∧
    ((applyBuys ⟨0, 0⟩ [(2, 50), (1, 55)]).size = totalSize [(2, 50), (1, 55)] ∧
     (applyBuys ⟨0, 0⟩ [(2, 50), (1, 55)]).entry_price
       = totalCost [(2, 50), (1, 55)] / totalSize [(2, 50), (1, 55)]) :=
  ⟨executeOrder_buy_weighted_average.1 (fun _ => ⟨0, 0⟩) 3 1
     (fun _ => Except.ok "x") 2 50 "BTC-USD" "x"
     (by simp [validateOrderParams]; norm_num) rfl,
   executeOrder_buy_weighted_average.2 [(2, 50), (1, 55)] 0 (by simp)
     (by intro b hb; fin_cases hb <;> norm_num)⟩

/-- C6: `adjust_position` with the target equal to the tracked size returns
`None` with zero exchange calls; otherwise it issues exactly one order
through `execute_order` — a buy of `abs(target - current)` when the target
exceeds the current size, a sell of that amount when it is below — and the
wrapper adds no further gateway calls or delays of its own. -/
theorem adjustPosition_characterization
    (positions : String → Position) (n : Nat) (d : ℚ)
    (gw : Nat → Except String String) (pair : String) (target price : ℚ) :
    ((positions pair).size = target →
      adjustPosition positions n d gw pair target price
        = ⟨0, [], positions, Except.ok none⟩) ∧
    ((positions pair).size ≠ target →
      adjustPosition positions n d gw pair target price
        = adjustWrap (executeOrder positions n d gw
            (if (positions pair).size < target then "buy" else "sell")
            (|target - (positions pair).size|) price pair)) ∧
    (∀ r : ExecOutcome, (adjustWrap r).calls = r.calls ∧
      (adjustWrap r).delays = r.delays) := by
  refine ⟨?_, ?_, ?_⟩
  · intro h
    simp only [adjustPosition]
    rw [if_pos h]
  · intro h
    simp only [adjustPosition]
    rw [if_neg h]
  · intro r
    cases hr : r.result <;> simp [adjustWrap, hr]

/-- Witness for C6: a target equal to the current size of 1 is a no-op with
zero gateway calls; a target of 3 issues the single wrapped buy of 2. -/
theorem adjustPosition_characterization_witness :
    adjustPosition (fun _ => ⟨1, 50⟩) 3 1 (fun _ => Except.ok "x")
        "BTC-USD" 1 50000
      = ⟨0, [], (fun _ => ⟨1, 50⟩), Except.ok none⟩ ∧
    adjustPosition (fun _ => ⟨1, 50⟩) 3 1 (fun _ => Except.ok "x")
        "BTC-USD" 3 50000
      = adjustWrap (executeOrder (fun _ => ⟨1, 50⟩) 3 1 (fun _ => Except.ok "x")
          (if ((fun _ => (⟨1, 50⟩ : Position)) "BTC-USD").size < (3 : ℚ)
            then "buy" else "sell")
          (|(3 : ℚ) - ((fun _ => (⟨1, 50⟩ : Position)) "BTC-USD").size|)
          50000 "BTC-USD") :=
  ⟨(adjustPosition_characterization (fun _ => ⟨1, 50⟩) 3 1 (fun _ => Except.ok "x")
      "BTC-USD" 1 50000).1 rfl,
   (adjustPosition_characterization (fun _ => ⟨1, 50⟩) 3 1 (fun _ => Except.ok "x")
      "BTC-USD" 3 50000).2.1 (by norm_num)⟩

/-- C5 counterexample: a `PositionError` arising inside `execute_order` does
not propagate unmodified through `adjust_position` — requesting a target of
-1 on a flat book raises an `OrderExecutionError` wrapping the message, not
a `PositionError`. -/
theorem adjustPosition_wraps_positionError :
    (adjustPosition (fun _ => ⟨0, 0⟩) 3 1 (fun _ => Except.ok "oid")
        "BTC-USD" (-1) 100).result
      = Except.error (TradingError.orderExecutionError
          "Order execution error: Position adjustment failed: Position error: Insufficient position size for sell order: 1") := by
  have hv : validateOrderParams "sell" 1 100 "BTC-USD" = none := by
    simp [validateOrderParams]
    norm_num
  have habs : |(-1 : ℚ) - ((fun _ => (⟨0, 0⟩ : Position)) "BTC-USD").size| = 1 := by
    norm_num
  simp only [adjustPosition]
  rw [if_neg (by norm_num : ¬(((fun _ => (⟨0, 0⟩ : Position)) "BTC-USD").size = (-1 : ℚ)))]
  rw [if_neg (by norm_num : ¬(((fun _ => (⟨0, 0⟩ : Position)) "BTC-USD").size < (-1 : ℚ)))]
  rw [habs]
  simp only [executeOrder, hv]
  rw [if_pos (by norm_num)]
  simp only [adjustWrap, errMessage]
  rfl

/-- C5 (amended): `ValidationError` and `PositionError` propagate unmodified
from `execute_order` to its direct caller; but when `execute_order` is
invoked via `adjust_position`, every error it raises — including those two —
is caught and re-raised as an `OrderExecutionError` wrapping the original
message. -/
theorem errorPropagation_amended :
    (∀ (positions : String → Position) (n : Nat) (d : ℚ)
        (gw : Nat → Except String String) (side : String) (size price : ℚ)
        (pair msg : String),
      validateOrderParams side size price pair = some msg →
      (executeOrder positions n d gw side size price pair).result
        = Except.error (TradingError.validationError
            ("Validation error: " ++ msg))) ∧
    (∀ (positions : String → Position) (n : Nat) (d : ℚ)
        (gw : Nat → Except String String) (size price : ℚ) (pair : String),
      validateOrderParams "sell" size price pair = none →
      (positions pair).size < size →
      (executeOrder positions n d gw "sell" size price pair).result
        = Except.error (TradingError.positionError
            ("Position error: Insufficient position size for sell order: "
              ++ toString size))) ∧
    (∀ (positions : String → Position) (n : Nat) (d : ℚ)
        (gw : Nat → Except String String) (pair : String)
        (target price : ℚ) (e : TradingError),
      (positions pair).size ≠ target →
      (executeOrder positions n d gw
          (if (positions pair).size < target then "buy" else "sell")
          (|target - (positions pair).size|) price pair).result
        = Except.error e →
      (adjustPosition positions n d gw pair target price).result
        = Except.error (TradingError.orderExecutionError
            ("Order execution error: Position adjustment failed: "
              ++ errMessage e))) := by
  refine ⟨?_, ?_, ?_⟩
  · intro positions n d gw side size price pair msg h
    simp [executeOrder, h]
  · intro positions n d gw size price pair hvalid hsz
    simp only [executeOrder, hvalid]
    rw [if_pos (by simp [hsz])]
  · intro positions n d gw pair target price e hne herr
    simp only [adjustPosition]
    rw [if_neg hne]
    simp [adjustWrap, herr]

/-- Witness for C5 (amended): an invalid side fails with `ValidationError`;
an oversized sell fails with `PositionError`; the same oversized sell routed
through `adjust_position` surfaces as a wrapped `OrderExecutionError`. -/
theorem errorPropagation_amended_witness :
    (executeOrder (fun _ => ⟨0, 0⟩) 3 1 (fun _ => Except.ok "oid")
        "hold" 1 100 "BTC-USD").result
      = Except.error (TradingError.validationError
          ("Validation error: "
            ++ ("Invalid order side: " ++ "hold" ++ " (must be buy or sell)"))) ∧
    (executeOrder (fun _ => ⟨0, 0⟩) 3 1 (fun _ => Except.ok "oid")
        "sell" 1 100 "BTC-USD").result
      = Except.error (TradingError.positionError
          ("Position error: Insufficient position size for sell order: "
            ++ toString (1 : ℚ))) ∧
    (adjustPosition (fun _ => ⟨0, 0⟩) 3 1 (fun _ => Except.ok "oid")
        "BTC-USD" (-1) 100).result
      = Except.error (TradingError.orderExecutionError
          ("Order execution error: Position adjustment failed: "
            ++ errMessage (TradingError.positionError
                 ("Position error: Insufficient position size for sell order: "
                   ++ toString (1 : ℚ))))) :=
  ⟨errorPropagation_amended.1 (fun _ => ⟨0, 0⟩) 3 1 (fun _ => Except.ok "oid")
     "hold" 1 100 "BTC-USD" _ rfl,
   errorPropagation_amended.2.1 (fun _ => ⟨0, 0⟩) 3 1 (fun _ => Except.ok "oid")
     1 100 "BTC-USD" (by simp [validateOrderParams]; norm_num) (by norm_num),
   errorPropagation_amended.2.2 (fun _ => ⟨0, 0⟩) 3 1 (fun _ => Except.ok "oid")
     "BTC-USD" (-1) 100
     (TradingError.positionError
       ("Position error: Insufficient position size for sell order: "
         ++ toString (1 : ℚ)))
     (by norm_num)
     (by
       have hv : validateOrderParams "sell" 1 100 "BTC-USD" = none := by
         simp [validateOrderParams]
         norm_num
       have habs : |(-1 : ℚ) - ((fun _ => (⟨0, 0⟩ : Position)) "BTC-USD").size| = 1 := by
         norm_num
       rw [if_neg (by norm_num : ¬(((fun _ => (⟨0, 0⟩ : Position)) "BTC-USD").size < (-1 : ℚ)))]
       rw [habs]
       simp only [executeOrder, hv]
       rw [if_pos (by norm_num)])⟩

/-- C7: evidence of the claimed property failing in the code. With the
reference windows (short 5, long 20) and a history of five prices of 100,
the long-window mean is the neutral no-data value 0, yet the comparison
logic reads the positive short mean against it as a crossover and executes a
buy — the neutral value does cause a trade. -/
theorem crossover_noData_misread :
    calculateMovingAverage
        (fun p => if p = "BTC-USD" then some (List.replicate 5 (100 : ℚ)) else none)
        "BTC-USD" 20 = 0 ∧
    calculateMovingAverage
        (fun p => if p = "BTC-USD" then some (List.replicate 5 (100 : ℚ)) else none)
        "BTC-USD" 5 = 100 ∧
    crossoverTradeSide
        (fun p => if p = "BTC-USD" then some (List.replicate 5 (100 : ℚ)) else none)
        "BTC-USD" 5 20 = some "buy" := by
  refine ⟨?_, ?_, ?_⟩
  · norm_num [calculateMovingAverage]
  · norm_num [calculateMovingAverage, List.replicate]
  · norm_num [crossoverTradeSide, calculateMovingAverage, List.replicate]

/-- C8: `get_current_price` returns a cached price with no network call —
in particular any price just written by `simulate_price_update` or by ticker
processing — and on a cache miss performs one REST fetch, writing a
successfully fetched (positive) price back into the cache before returning
it. -/
theorem getCurrentPrice_cache_precedence :
    (∀ (prices : String → Option ℚ) (fetched : Option ℚ) (symbol : String) (p : ℚ),
      prices symbol = some p →
      getCurrentPrice prices fetched symbol = ⟨0, prices, p⟩) ∧
    (∀ (prices : String → Option ℚ) (fetched : Option ℚ) (symbol : String) (q : ℚ),
      prices symbol = none →
      (getCurrentPrice prices fetched symbol).networkCalls = 1 ∧
      (fetched = some q → 0 < q →
        (getCurrentPrice prices fetched symbol).prices symbol = some q ∧
        (getCurrentPrice prices fetched symbol).value = q)) ∧
    (∀ (prices : String → Option ℚ) (fetched : Option ℚ) (symbol : String) (q : ℚ),
      getCurrentPrice (simulatePriceUpdate prices symbol q) fetched symbol
        = ⟨0, simulatePriceUpdate prices symbol q, q⟩) ∧
    (∀ (prices : String → Option ℚ) (fetched : Option ℚ) (symbol : String) (q : ℚ),
      getCurrentPrice (handleTicker prices (some symbol) (some q)) fetched symbol
        = ⟨0, handleTicker prices (some symbol) (some q), q⟩) := by
  refine ⟨?_, ?_, ?_, ?_⟩
  · intro prices fetched symbol p h
    simp [getCurrentPrice, h]
  · intro prices fetched symbol q h
    constructor
    · cases fetched with
      | none => simp [getCurrentPrice, h]
      | some v =>
        by_cases hv : v ≤ 0 <;> simp [getCurrentPrice, h, hv]
    · intro hf hq
      subst hf
      have hq2 : ¬ q ≤ 0 := not_le.mpr hq
      simp [getCurrentPrice, h, hq2]
  · intro prices fetched symbol q
    have h : simulatePriceUpdate prices symbol q symbol = some q := by
      simp [simulatePriceUpdate]
    simp [getCurrentPrice, h]
  · intro prices fetched symbol q
    have h : handleTicker prices (some symbol) (some q) symbol = some q := by
      simp [handleTicker]
    simp [getCurrentPrice, h]

/-- Witness for C8: a cache hit returns the cached 42 with zero network
calls; on a miss the fetched 7 is cached and returned after one call. -/
theorem getCurrentPrice_cache_precedence_witness :
    getCurrentPrice (fun _ => some 42) none "BTC-USD"
      = ⟨0, (fun _ => some 42), 42⟩ ∧
    ((getCurrentPrice (fun _ => none) (some 7) "BTC-USD").networkCalls = 1 ∧
     (getCurrentPrice (fun _ => none) (some 7) "BTC-USD").prices "BTC-USD" = some 7 ∧
     (getCurrentPrice (fun _ => none) (some 7) "BTC-USD").value = 7) :=
  ⟨getCurrentPrice_cache_precedence.1 (fun _ => some 42) none "BTC-USD" 42 rfl,
   (getCurrentPrice_cache_precedence.2.1 (fun _ => none) (some 7) "BTC-USD" 7 rfl).1,
   (getCurrentPrice_cache_precedence.2.1 (fun _ => none) (some 7) "BTC-USD" 7 rfl).2
     rfl (by norm_num)⟩

/-- C9: no operation of `CoinbaseStreaming` ever assigns the `price_data`
attribute that `get_current_price` reads, so in every reachable attribute
state (any subset of the attributes the class ever writes) the call raises
`AttributeError`, whatever the pair. -/
theorem streamingGetCurrentPrice_attributeError :
    "price_data" ∉ streamingWrittenAttrs ∧
    ∀ (attrs : List String) (priceData : String → Option (List ℚ)) (pair : String),
      (∀ a ∈ attrs, a ∈ streamingWrittenAttrs) →
      streamingGetCurrentPrice attrs priceData pair
        = Except.error
            "AttributeError: CoinbaseStreaming object has no attribute price_data" := by
  constructor
  · decide
  · intro attrs priceData pair hsub
    have hmem : "price_data" ∉ attrs := by
      intro h
      have h2 := hsub _ h
      revert h2
      decide
    simp [streamingGetCurrentPrice, hmem]

/-- Witness for C9: with exactly the attributes `__init__` assigns,
`get_current_price` raises `AttributeError`. -/
theorem streamingGetCurrentPrice_attributeError_witness :
    streamingGetCurrentPrice streamingWrittenAttrs (fun _ => none) "BTC-USD"
      = Except.error
          "AttributeError: CoinbaseStreaming object has no attribute price_data" :=
  streamingGetCurrentPrice_attributeError.2 streamingWrittenAttrs
    (fun _ => none) "BTC-USD" (fun _ ha => ha)

/-- C10: `daily_stats.pnl` starts at zero and is preserved by every
trade-state update, so after any sequence of filled trades it is still zero
and, for any positive daily loss limit, the daily-loss check of
`execute_trade` never triggers (hence `is_running` is never cleared by it). -/
theorem dailyStats_pnl_never_written :
    (∀ (trades : List (ℚ × ℚ)), (applyTrades initialDailyStats trades).pnl = 0) ∧
    (∀ (trades : List (ℚ × ℚ)) (lossLimit : ℚ), 0 < lossLimit →
      dailyLossLimitBreached (applyTrades initialDailyStats trades) lossLimit
        = false) := by
  have hpnl : ∀ (l : List (ℚ × ℚ)) (s : DailyStats), (applyTrades s l).pnl = s.pnl := by
    intro l
    induction l with
    | nil => intro s; rfl
    | cons t rest ih =>
      intro s
      simpa [applyTrades, updateTradingState] using ih (updateTradingState s t.1 t.2)
  constructor
  · intro trades
    rw [hpnl]
    rfl
  · intro trades lossLimit _
    have hnb : ¬ ((applyTrades initialDailyStats trades).pnl < -|lossLimit|) := by
      rw [hpnl]
      show ¬ ((0 : ℚ) < -|lossLimit|)
      have h1 : -|lossLimit| ≤ 0 := neg_nonpos.mpr (abs_nonneg _)
      exact not_lt.mpr h1
    simpa [dailyLossLimitBreached] using hnb

/-- Witness for C10: after one filled trade of 2 @ 50, pnl is still zero and
a loss limit of 5 does not trip the kill switch. -/
theorem dailyStats_pnl_never_written_witness :
    (applyTrades initialDailyStats [(2, 50)]).pnl = 0 ∧
    dailyLossLimitBreached (applyTrades initialDailyStats [(2, 50)]) 5 = false :=
  ⟨dailyStats_pnl_never_written.1 [(2, 50)],
   dailyStats_pnl_never_written.2 [(2, 50)] 5 (by norm_num)⟩
